import Mathlib

/-!
Shallow embedding of the regularization-path evaluation code in
Module5/Bias-Variance-Trade-Off.ipynb.

Numeric values that flow through the evaluation loop are modelled as
`Option ℚ`: `some q` is an ordinary (exactly represented) float and
`none` is the IEEE NaN sentinel, which every arithmetic operation
propagates.  The fitted model produced by the external solver
(sklearn Ridge / Lasso) is abstracted as a function from the penalty
to a coefficient vector plus intercept, exactly the solver interface
the notebook relies on (construct with alpha, fit, read coef_,
predict).  Matplotlib calls are modelled as an explicit effect trace.
-/

/-- A floating point value: `some q` an exact real, `none` = NaN. -/
abbrev FVal := Option ℚ

/-- NaN-propagating addition. -/
def fadd : FVal → FVal → FVal
  | some a, some b => some (a + b)
  | _, _ => none

/-- NaN-propagating subtraction. -/
def fsub : FVal → FVal → FVal
  | some a, some b => some (a - b)
  | _, _ => none

/-- NaN-propagating multiplication. -/
def fmul : FVal → FVal → FVal
  | some a, some b => some (a * b)
  | _, _ => none

/-- Sum of a list of floats (NaN anywhere poisons the result). -/
def fsum (l : List FVal) : FVal := l.foldr fadd (some 0)

/-- Division of a float by a (list-length) natural number; division by
zero yields NaN, matching the float semantics of `mean` on empty data. -/
def fdivNat (v : FVal) (n : Nat) : FVal :=
  match v with
  | some a => if n = 0 then none else some (a / (n : ℚ))
  | none => none

/-- IEEE strict less-than: any comparison against NaN is false. -/
def flt : FVal → FVal → Bool
  | some a, some b => decide (a < b)
  | _, _ => false

/-- Dot product of two float vectors. -/
def dotProd (xs ys : List FVal) : FVal := fsum (List.zipWith fmul xs ys)

/-- A fitted linear model: the solver output coef_ and intercept_. -/
structure Model where
  coef : List FVal
  intercept : FVal

/-- Prediction for a single feature row: row · coef + intercept. -/
def predictRow (m : Model) (row : List FVal) : FVal :=
  fadd (dotProd row m.coef) m.intercept

/-- sklearn predict: one prediction per feature row. -/
def predict (m : Model) (X : List (List FVal)) : List FVal :=
  X.map (predictRow m)

/-- Squared difference of two floats. -/
def sqDiff (a b : FVal) : FVal := fmul (fsub a b) (fsub a b)

/-- sklearn.metrics.mean_squared_error on the NaN-aware domain:
sum of squared differences divided by the number of samples
(population mean, no Bessel correction, and no square root). -/
def fmean_sq_err (y_true y_pred : List FVal) : FVal :=
  fdivNat (fsum (List.zipWith sqDiff y_true y_pred)) y_true.length

/-- Python-level exceptions relevant to the evaluation routine.
`valueError` models the ValueError numpy argmin raises on an empty
sequence; `emptyGridError` is the dedicated configuration error the
specification postulates (it appears nowhere in the code and exists
here only so the two can be compared). -/
inductive PyErr where
  | valueError
  | emptyGridError
deriving DecidableEq

/-- Index of the first element satisfying p (length if none does);
the specification of List.findIdx, kept as a plain recursion so its
properties are provable by direct induction. -/
def idxOfP (p : FVal → Bool) : List FVal → Nat
  | [] => 0
  | x :: xs => if p x then 0 else idxOfP p xs + 1

/-- Running minimum of a float list under the IEEE comparison:
numpy argmin keeps the current minimum and replaces it only on a
strictly smaller value. -/
def fminList : List FVal → FVal
  | [] => none
  | x :: xs => xs.foldl (fun acc v => if flt v acc then v else acc) x

/-- np.argmin on a float list: raises ValueError on an empty sequence;
when NaN is present it returns the index of the first NaN (NaN
propagates through numpy minimum selection); otherwise it returns the
first index attaining the minimum. -/
def np_argmin : List FVal → Except PyErr Nat
  | [] => Except.error PyErr.valueError
  | x :: xs =>
      if (x :: xs).any (fun v => v.isNone) then
        Except.ok (idxOfP (fun v => v.isNone) (x :: xs))
      else
        Except.ok (idxOfP (fun v => decide (v = fminList (x :: xs))) (x :: xs))

/-- One matplotlib call made by plot_regularization (styling kwargs
such as color and linestyle are presentation detail and not recorded). -/
inductive PlotEff where
  | plotXY (xs : List ℚ) (ys : List FVal) (label : Option String)
  | plotMulti (xs : List ℚ) (yss : List (List FVal))
  | axvline (x : ℚ)
  | legend
  | xlabel (s : String)
  | ylabel (s : String)
  | title (s : String)
  | showFig

/-- plot_regularization from the notebook: the exact sequence of
matplotlib calls it performs, as an effect trace. -/
def plot_regularization (l : List ℚ) (train_RMSE test_RMSE : List FVal)
    (coefs : List (List FVal)) (min_idx : ℚ) (title : String) : List PlotEff :=
  [ PlotEff.plotXY l test_RMSE (some "Test RMSE"),
    PlotEff.plotXY l train_RMSE (some "Train RMSE"),
    PlotEff.axvline min_idx,
    PlotEff.legend,
    PlotEff.xlabel "Regularization parameter",
    PlotEff.ylabel "Root Mean Square Error",
    PlotEff.title title,
    PlotEff.showFig,
    PlotEff.plotMulti l coefs,
    PlotEff.axvline min_idx,
    PlotEff.title "Model coefficient values \n vs. regularizaton parameter",
    PlotEff.xlabel "Regularization parameter",
    PlotEff.ylabel "Model coefficient value",
    PlotEff.showFig ]

/-- The for-loop of test_regularization_l2: for each penalty reg, fit
the model, append the fitted coefficients, append
mean_squared_error(y_train, predict(x_train)) and
mean_squared_error(y_test, predict(x_test)).  Returns the three
parallel lists (train_RMSE, test_RMSE, coefs). -/
def regPath_l2 (ridge_fit : ℚ → Model) (x_train : List (List FVal))
    (y_train : List FVal) (x_test : List (List FVal)) (y_test : List FVal) :
    List ℚ → List FVal × List FVal × List (List FVal)
  | [] => ([], [], [])
  | reg :: rest =>
      let lin_mod := ridge_fit reg
      let tail := regPath_l2 ridge_fit x_train y_train x_test y_test rest
      (fmean_sq_err y_train (predict lin_mod x_train) :: tail.1,
       fmean_sq_err y_test (predict lin_mod x_test) :: tail.2.1,
       lin_mod.coef :: tail.2.2)

/-- The for-loop of test_regularization_l1, identical in structure to
the l2 loop except that the fitted model comes from the Lasso solver. -/
def regPath_l1 (lasso_fit : ℚ → Model) (x_train : List (List FVal))
    (y_train : List FVal) (x_test : List (List FVal)) (y_test : List FVal) :
    List ℚ → List FVal × List FVal × List (List FVal)
  | [] => ([], [], [])
  | reg :: rest =>
      let lin_mod := lasso_fit reg
      let tail := regPath_l1 lasso_fit x_train y_train x_test y_test rest
      (fmean_sq_err y_train (predict lin_mod x_train) :: tail.1,
       fmean_sq_err y_test (predict lin_mod x_test) :: tail.2.1,
       lin_mod.coef :: tail.2.2)

/-- test_regularization_l2: run the loop, take np.argmin of the test
list (which raises on an empty grid), look up the best penalty and its
recorded error, call plot_regularization, and return the pair
(min_l2, min_RMSE) together with the emitted plot effects. -/
def test_regularization_l2 (ridge_fit : ℚ → Model) (x_train : List (List FVal))
    (y_train : List FVal) (x_test : List (List FVal)) (y_test : List FVal)
    (l2 : List ℚ) : Except PyErr ((ℚ × FVal) × List PlotEff) :=
  let path := regPath_l2 ridge_fit x_train y_train x_test y_test l2
  let train_RMSE := path.1
  let test_RMSE := path.2.1
  let coefs := path.2.2
  match np_argmin test_RMSE with
  | Except.error e => Except.error e
  | Except.ok min_idx =>
      let min_l2 := l2.getD min_idx 0
      let min_RMSE := test_RMSE.getD min_idx none
      let title := "Train and test root mean square error \n vs. regularization parameter"
      Except.ok ((min_l2, min_RMSE),
        plot_regularization l2 train_RMSE test_RMSE coefs min_l2 title)

/-- test_regularization_l1: same computation as the l2 routine, with
the Lasso solver supplying the fitted models. -/
def test_regularization_l1 (lasso_fit : ℚ → Model) (x_train : List (List FVal))
    (y_train : List FVal) (x_test : List (List FVal)) (y_test : List FVal)
    (l1 : List ℚ) : Except PyErr ((ℚ × FVal) × List PlotEff) :=
  let path := regPath_l1 lasso_fit x_train y_train x_test y_test l1
  let train_RMSE := path.1
  let test_RMSE := path.2.1
  let coefs := path.2.2
  match np_argmin test_RMSE with
  | Except.error e => Except.error e
  | Except.ok min_idx =>
      let min_l1 := l1.getD min_idx 0
      let min_RMSE := test_RMSE.getD min_idx none
      let title := "Train and test root mean square error \n vs. regularization parameter"
      Except.ok ((min_l1, min_RMSE),
        plot_regularization l1 train_RMSE test_RMSE coefs min_l1 title)

/-- The value the Python function returns: the (best penalty, best
recorded error) pair, with the plotting effects stripped. -/
def returnedPair (r : Except PyErr ((ℚ × FVal) × List PlotEff)) :
    Except PyErr (ℚ × FVal) :=
  r.map Prod.fst

/-- Number of plotting effects a run of the evaluation routine emits
(zero when it raises). -/
def effectCount (r : Except PyErr ((ℚ × FVal) × List PlotEff)) : Nat :=
  match r with
  | Except.ok p => p.2.length
  | Except.error _ => 0

/-!
Metric glue: print_metrics from the first code cell.  It operates on
the concrete (NaN-free) float data of the notebook, so plain rationals
suffice; the one genuinely real-valued quantity is the square root
taken for the RMSE line.  The function prints five lines and returns
None; the print calls are modelled as an effect trace of
(label, value) lines and the return value as Unit.

Every sklm metric function begins by validating its inputs
(check_consistent_length) and raises ValueError when the two sequences
have different lengths, before computing anything.  That validation is
modelled separately below (check_consistent_length,
print_metrics_checked); the metric bodies themselves are therefore
stated on the validated, equal-length domain, where the zipWith pairing
coincides with sklearn's elementwise pairing.
-/

/-- Arithmetic mean of a rational list (numpy mean). -/
def listMean (l : List ℚ) : ℚ := l.sum / (l.length : ℚ)

/-- sklearn.metrics.mean_squared_error on exact, validated data: the
body that runs after check_consistent_length has accepted the inputs
(on mismatched lengths sklearn raises ValueError instead; see
check_consistent_length below). -/
def mean_squared_error (y_true y_pred : List ℚ) : ℚ :=
  (List.zipWith (fun a b => (a - b) ^ 2) y_true y_pred).sum / (y_true.length : ℚ)

/-- sklearn.metrics.mean_absolute_error on exact, validated data (the
post-check_consistent_length body, like mean_squared_error). -/
def mean_absolute_error (y_true y_pred : List ℚ) : ℚ :=
  (List.zipWith (fun a b => |a - b|) y_true y_pred).sum / (y_true.length : ℚ)

/-- numpy median: middle element of the sorted data for odd length,
average of the two middle elements for even length. -/
def npMedian (xs : List ℚ) : ℚ :=
  let s := List.insertionSort (fun a b : ℚ => a ≤ b) xs
  let n := xs.length
  if n % 2 = 1 then s.getD (n / 2) 0
  else (s.getD (n / 2 - 1) 0 + s.getD (n / 2) 0) / 2

/-- sklearn.metrics.median_absolute_error on exact, validated data
(the post-check_consistent_length body, like mean_squared_error). -/
def median_absolute_error (y_true y_pred : List ℚ) : ℚ :=
  npMedian (List.zipWith (fun a b => |a - b|) y_true y_pred)

/-- sklearn.metrics.r2_score on exact, validated data (the
post-check_consistent_length body): 1 - SSres / SStot, with sklearn's
conventional values when the total sum of squares vanishes. -/
def r2_score (y_true y_pred : List ℚ) : ℚ :=
  let ssRes := (List.zipWith (fun a b => (a - b) ^ 2) y_true y_pred).sum
  let ssTot := (y_true.map (fun a => (a - listMean y_true) ^ 2)).sum
  if ssTot = 0 then (if ssRes = 0 then 1 else 0) else 1 - ssRes / ssTot

/-- One printed line: the fixed label prefix and the numeric value. -/
structure MetricLine where
  label : String
  value : ℝ

/-- print_metrics from the notebook: computes MSE, RMSE (the square
root of the MSE), MAE, median absolute error and R^2, prints each on
its own line, and returns None.  The Unit component is the Python
return value; the list is the trace of print calls in order. -/
noncomputable def print_metrics (y_true y_predicted : List ℚ) :
    Unit × List MetricLine :=
  ((),
   [ MetricLine.mk "Mean Square Error      = "
       ((mean_squared_error y_true y_predicted : ℚ) : ℝ),
     MetricLine.mk "Root Mean Square Error = "
       (Real.sqrt ((mean_squared_error y_true y_predicted : ℚ) : ℝ)),
     MetricLine.mk "Mean Absolute Error    = "
       ((mean_absolute_error y_true y_predicted : ℚ) : ℝ),
     MetricLine.mk "Median Absolute Error  = "
       ((median_absolute_error y_true y_predicted : ℚ) : ℝ),
     MetricLine.mk "R^2                    = "
       ((r2_score y_true y_predicted : ℚ) : ℝ) ])

/-- sklearn's check_consistent_length input validation, performed at
the start of every sklm metric call, before any computation: it raises
ValueError when the two sequences have different lengths. -/
def check_consistent_length (y_true y_pred : List ℚ) : Except PyErr Unit :=
  if y_true.length = y_pred.length then Except.ok ()
  else Except.error PyErr.valueError

/-- A full run of print_metrics including sklearn's input validation:
the first metric call in the body (r2_score, computed first) validates
the lengths via check_consistent_length and raises ValueError before
anything is printed; on equal-length inputs the run returns None after
emitting the five print lines of print_metrics. -/
noncomputable def print_metrics_checked (y_true y_predicted : List ℚ) :
    Except PyErr (Unit × List MetricLine) :=
  match check_consistent_length y_true y_predicted with
  | Except.error e => Except.error e
  | Except.ok _ => Except.ok (print_metrics y_true y_predicted)

/-!
Concrete fixtures used to evaluate the embedding on explicit inputs.
-/

/-- A solver stub returning the zero model at every penalty. -/
def constFit : ℚ → Model := fun _ => Model.mk [some 0] (some 0)

/-- A solver stub that fails to converge at penalty 2, yielding a NaN
model there, and the zero model elsewhere. -/
def nanFit : ℚ → Model :=
  fun r => if r = 2 then Model.mk [none] none else Model.mk [some 0] (some 0)

/-- A one-row, one-feature design matrix. -/
def oneX : List (List FVal) := [[some 1]]

/-- Label vector [0]. -/
def y0 : List FVal := [some 0]

/-- Label vector [2]. -/
def y2 : List FVal := [some 2]

/-!
Helper lemmas about the IEEE comparison, the running minimum, the
first-index search, and the shape of the evaluation loop.
-/

lemma flt_irrefl (v : FVal) : flt v v = false := by
  cases v <;> simp [flt]

lemma flt_trans_absorb {v y w : FVal} (h1 : flt v y = false) (h2 : flt w y = true) :
    flt v w = false := by
  cases v <;> cases y <;> cases w <;> simp_all [flt] <;> linarith

lemma flt_asymm {x w : FVal} (h : flt w x = true) : flt x w = false := by
  cases x <;> cases w <;> simp_all [flt] <;> linarith

lemma flt_total_some {a b : ℚ} (h1 : flt (some a) (some b) = false)
    (h2 : (some a : FVal) ≠ some b) : flt (some b) (some a) = true := by
  simp_all [flt]
  exact lt_of_le_of_ne h1 (Ne.symm h2)

lemma foldl_min_mono :
    ∀ (xs : List FVal) (y v : FVal), flt v y = false →
      flt v (xs.foldl (fun acc w => if flt w acc then w else acc) y) = false := by
  intro xs
  induction xs with
  | nil => intro y v h; simpa using h
  | cons w xs ih =>
      intro y v h
      simp only [List.foldl_cons]
      apply ih
      by_cases hw : flt w y = true
      · simpa [hw] using flt_trans_absorb h hw
      · simp only [Bool.not_eq_true] at hw
        simpa [hw] using h

lemma foldl_min_notlt :
    ∀ (xs : List FVal) (x v : FVal), (v = x ∨ v ∈ xs) →
      flt v (xs.foldl (fun acc w => if flt w acc then w else acc) x) = false := by
  intro xs
  induction xs with
  | nil =>
      intro x v hv
      rcases hv with h | h
      · subst h; simpa using flt_irrefl v
      · simp at h
  | cons w xs ih =>
      intro x v hv
      simp only [List.foldl_cons]
      rcases hv with h | h
      · subst h
        apply foldl_min_mono
        by_cases hw : flt w v = true
        · simpa [hw] using flt_asymm hw
        · simp only [Bool.not_eq_true] at hw
          simpa [hw] using flt_irrefl v
      · rcases List.mem_cons.mp h with h1 | h1
        · subst h1
          apply foldl_min_mono
          by_cases hw : flt v x = true
          · simpa [hw] using flt_irrefl v
          · simp only [Bool.not_eq_true] at hw
            simpa [hw] using hw
        · exact ih _ v (Or.inr h1)

lemma foldl_min_mem :
    ∀ (xs : List FVal) (x : FVal),
      xs.foldl (fun acc w => if flt w acc then w else acc) x = x ∨
      xs.foldl (fun acc w => if flt w acc then w else acc) x ∈ xs := by
  intro xs
  induction xs with
  | nil => intro x; left; rfl
  | cons w xs ih =>
      intro x
      simp only [List.foldl_cons]
      rcases ih (if flt w x then w else x) with h | h
      · rw [h]
        by_cases hw : flt w x = true
        · right; simp [hw]
        · simp only [Bool.not_eq_true] at hw
          left; simp [hw]
      · right; exact List.mem_cons_of_mem _ h

lemma fminList_mem {l : List FVal} (h : l ≠ []) : fminList l ∈ l := by
  cases l with
  | nil => exact absurd rfl h
  | cons x xs =>
      simp only [fminList]
      rcases foldl_min_mem xs x with h1 | h1
      · rw [h1]; exact List.mem_cons_self x xs
      · exact List.mem_cons_of_mem _ h1

lemma fminList_notlt {l : List FVal} {v : FVal} (hv : v ∈ l) :
    flt v (fminList l) = false := by
  cases l with
  | nil => simp at hv
  | cons x xs =>
      simp only [fminList]
      rcases List.mem_cons.mp hv with h | h
      · exact foldl_min_notlt xs x v (Or.inl h)
      · exact foldl_min_notlt xs x v (Or.inr h)

lemma idxOfP_lt_length {p : FVal → Bool} :
    ∀ {l : List FVal}, (∃ v ∈ l, p v = true) → idxOfP p l < l.length := by
  intro l
  induction l with
  | nil => rintro ⟨v, hv, _⟩; simp at hv
  | cons x xs ih =>
      rintro ⟨v, hv, hp⟩
      cases hpx : p x with
      | true => simp [idxOfP, hpx]
      | false =>
          rcases List.mem_cons.mp hv with h | h
          · subst h; rw [hpx] at hp; cases hp
          · have h1 := ih ⟨v, h, hp⟩
            simp only [idxOfP, hpx, Bool.false_eq_true, if_false, List.length_cons]
            omega

lemma idxOfP_getD {p : FVal → Bool} {d : FVal} :
    ∀ {l : List FVal}, (∃ v ∈ l, p v = true) →
      p (l.getD (idxOfP p l) d) = true := by
  intro l
  induction l with
  | nil => rintro ⟨v, hv, _⟩; simp at hv
  | cons x xs ih =>
      rintro ⟨v, hv, hp⟩
      cases hpx : p x with
      | true => simpa [idxOfP, hpx] using hpx
      | false =>
          rcases List.mem_cons.mp hv with h | h
          · subst h; rw [hpx] at hp; cases hp
          · simp only [idxOfP, hpx, Bool.false_eq_true, if_false, List.getD_cons_succ]
            exact ih ⟨v, h, hp⟩

lemma idxOfP_before {p : FVal → Bool} {d : FVal} :
    ∀ {l : List FVal} {j : Nat}, j < idxOfP p l → p (l.getD j d) = false := by
  intro l
  induction l with
  | nil => intro j hj; simp [idxOfP] at hj
  | cons x xs ih =>
      intro j hj
      cases hpx : p x with
      | true => simp [idxOfP, hpx] at hj
      | false =>
          simp only [idxOfP, hpx, Bool.false_eq_true, if_false] at hj
          cases j with
          | zero => simpa using hpx
          | succ j =>
              simp only [List.getD_cons_succ]
              exact ih (by omega)

lemma getD_mem {d : FVal} :
    ∀ {l : List FVal} {j : Nat}, j < l.length → l.getD j d ∈ l := by
  intro l
  induction l with
  | nil => intro j hj; simp at hj
  | cons x xs ih =>
      intro j hj
      cases j with
      | zero => simp
      | succ j =>
          simp only [List.getD_cons_succ]
          exact List.mem_cons_of_mem _ (ih (by simpa using hj))

lemma np_argmin_with_nan {l : List FVal}
    (h : l.any (fun v => v.isNone) = true) :
    np_argmin l = Except.ok (idxOfP (fun v => v.isNone) l) := by
  cases l with
  | nil => simp at h
  | cons x xs => simp [np_argmin, h]

lemma np_argmin_no_nan {l : List FVal} (hne : l ≠ [])
    (h : ∀ v ∈ l, v ≠ none) :
    np_argmin l = Except.ok (idxOfP (fun v => decide (v = fminList l)) l) := by
  cases l with
  | nil => exact absurd rfl hne
  | cons x xs =>
      have hany : (x :: xs).any (fun v => v.isNone) = false := by
        simp only [List.any_eq_false]
        intro v hv
        simpa [Option.isNone_iff_eq_none] using h v hv
      simp [np_argmin, hany]

lemma np_argmin_ok {l : List FVal} (hne : l ≠ []) :
    ∃ k, np_argmin l = Except.ok k := by
  by_cases hn : l.any (fun v => v.isNone) = true
  · exact ⟨_, np_argmin_with_nan hn⟩
  · refine ⟨_, np_argmin_no_nan hne ?_⟩
    intro v hv he
    subst he
    rw [List.any_eq_true] at hn
    exact hn ⟨none, hv, rfl⟩

lemma np_argmin_lt_length {l : List FVal} {k : Nat}
    (h : np_argmin l = Except.ok k) : k < l.length := by
  rcases List.eq_nil_or_concat l with rfl | _
  · simp [np_argmin] at h
  by_cases hn : l.any (fun v => v.isNone) = true
  · rw [np_argmin_with_nan hn] at h
    have hk : k = idxOfP (fun v => v.isNone) l := by
      simpa using h.symm
    subst hk
    apply idxOfP_lt_length
    rw [List.any_eq_true] at hn
    rcases hn with ⟨v, hv, hp⟩
    exact ⟨v, hv, hp⟩
  · have hne : l ≠ [] := by
      intro he; subst he; simp [np_argmin] at h
    have hno : ∀ v ∈ l, v ≠ none := by
      intro v hv he
      subst he
      rw [List.any_eq_true] at hn
      exact hn ⟨none, hv, rfl⟩
    rw [np_argmin_no_nan hne hno] at h
    have hk : k = idxOfP (fun v => decide (v = fminList l)) l := by
      simpa using h.symm
    subst hk
    exact idxOfP_lt_length ⟨fminList l, fminList_mem hne, by simp⟩

lemma regPath_l2_lengths (fit : ℚ → Model) (xtr : List (List FVal))
    (ytr : List FVal) (xte : List (List FVal)) (yte : List FVal) :
    ∀ grid : List ℚ,
      (regPath_l2 fit xtr ytr xte yte grid).1.length = grid.length ∧
      (regPath_l2 fit xtr ytr xte yte grid).2.1.length = grid.length ∧
      (regPath_l2 fit xtr ytr xte yte grid).2.2.length = grid.length := by
  intro grid
  induction grid with
  | nil => simp [regPath_l2]
  | cons r rest ih => simp [regPath_l2, ih.1, ih.2.1, ih.2.2]

lemma regPath_l2_getD (fit : ℚ → Model) (xtr : List (List FVal))
    (ytr : List FVal) (xte : List (List FVal)) (yte : List FVal) :
    ∀ (grid : List ℚ) (i : Nat), i < grid.length →
      (regPath_l2 fit xtr ytr xte yte grid).1.getD i none
          = fmean_sq_err ytr (predict (fit (grid.getD i 0)) xtr) ∧
      (regPath_l2 fit xtr ytr xte yte grid).2.1.getD i none
          = fmean_sq_err yte (predict (fit (grid.getD i 0)) xte) ∧
      (regPath_l2 fit xtr ytr xte yte grid).2.2.getD i []
          = (fit (grid.getD i 0)).coef := by
  intro grid
  induction grid with
  | nil => intro i hi; simp at hi
  | cons r rest ih =>
      intro i hi
      cases i with
      | zero => simp [regPath_l2]
      | succ i =>
          simp only [regPath_l2, List.getD_cons_succ]
          exact ih i (by simpa using hi)

lemma regPath_l1_eq (fit : ℚ → Model) (xtr : List (List FVal))
    (ytr : List FVal) (xte : List (List FVal)) (yte : List FVal) :
    ∀ grid : List ℚ,
      regPath_l1 fit xtr ytr xte yte grid = regPath_l2 fit xtr ytr xte yte grid := by
  intro grid
  induction grid with
  | nil => rfl
  | cons r rest ih => simp [regPath_l1, regPath_l2, ih]

lemma test_reg_l2_with_argmin (fit : ℚ → Model) (xtr : List (List FVal))
    (ytr : List FVal) (xte : List (List FVal)) (yte : List FVal)
    (grid : List ℚ) {k : Nat}
    (h : np_argmin (regPath_l2 fit xtr ytr xte yte grid).2.1 = Except.ok k) :
    test_regularization_l2 fit xtr ytr xte yte grid =
      Except.ok ((grid.getD k 0,
          (regPath_l2 fit xtr ytr xte yte grid).2.1.getD k none),
        plot_regularization grid (regPath_l2 fit xtr ytr xte yte grid).1
          (regPath_l2 fit xtr ytr xte yte grid).2.1
          (regPath_l2 fit xtr ytr xte yte grid).2.2 (grid.getD k 0)
          "Train and test root mean square error \n vs. regularization parameter") := by
  simp only [test_regularization_l2, h]

lemma test_reg_l1_eq_l2 (fit : ℚ → Model) (xtr : List (List FVal))
    (ytr : List FVal) (xte : List (List FVal)) (yte : List FVal)
    (grid : List ℚ) :
    test_regularization_l1 fit xtr ytr xte yte grid
      = test_regularization_l2 fit xtr ytr xte yte grid := by
  unfold test_regularization_l1 test_regularization_l2
  rw [regPath_l1_eq]

/-!
Claim theorems.
-/

/-- C1: the claim that the values recorded by the evaluation loop are
root mean squared errors fails on the code: the loop appends
sklm.mean_squared_error without taking a square root, although the
notebook text, the list names and the plot labels all call the stored
quantity RMSE.  At the failing input (zero model, one feature row,
training labels [2]) the recorded train value is the MSE 4, while the
RMSE of the same predictions is sqrt(4) = 2 ≠ 4. -/
theorem recorded_error_is_mse_not_rmse :
    (regPath_l2 constFit oneX y2 oneX y2 [3]).1 = [some 4] ∧
    Real.sqrt ((4 : ℚ) : ℝ) = 2 ∧ (4 : ℚ) ≠ 2 := by
  refine ⟨?_, ?_, by norm_num⟩
  · norm_num [regPath_l2, fmean_sq_err, predict, predictRow, dotProd, fsum,
      fadd, fmul, fsub, sqDiff, fdivNat, constFit, oneX, y2]
  · rw [show ((4 : ℚ) : ℝ) = (2 : ℝ) ^ 2 by norm_num, Real.sqrt_sq (by norm_num)]

/-- C5 counterexample: on an empty penalty grid the code fails with
the ValueError that np.argmin raises on an empty sequence, which is
not the dedicated EmptyGridError the claim requires. -/
theorem empty_grid_raises_wrong_error :
    test_regularization_l2 constFit oneX y0 oneX y0 []
      = Except.error PyErr.valueError ∧
    PyErr.valueError ≠ PyErr.emptyGridError :=
  ⟨rfl, by decide⟩

/-- C5 (amended): for every solver and data, the evaluation routine
applied to an empty penalty grid fails with the ValueError raised by
np.argmin on an empty sequence. -/
theorem empty_grid_value_error (fit : ℚ → Model) (xtr : List (List FVal))
    (ytr : List FVal) (xte : List (List FVal)) (yte : List FVal) :
    test_regularization_l2 fit xtr ytr xte yte [] = Except.error PyErr.valueError := rfl

/-- C7 counterexample: print_metrics is not a pure record-returning
function: at the concrete input ([0], [1]) it performs five print side
effects. -/
theorem print_metrics_prints :
    (print_metrics [0] [1]).2.length = 5 ∧ (5 : Nat) ≠ 0 :=
  ⟨rfl, by decide⟩

/-- C7 (amended): print_metrics is not a pure record-returning
function.  On equal-length inputs a run returns None (unit, not a
record) and prints exactly five lines, labelled MSE, RMSE, MAE, median
absolute error and R^2 in this order, so the metric values leave the
function only through these print effects; on inputs of differing
lengths the sklearn metric calls validate the shape first (r2_score is
computed first in the body) and the run raises ValueError before
anything is printed — not a dedicated ShapeMismatchError. -/
theorem print_metrics_shape (y_true y_predicted : List ℚ) :
    (y_true.length = y_predicted.length →
      print_metrics_checked y_true y_predicted
        = Except.ok (print_metrics y_true y_predicted) ∧
      (print_metrics y_true y_predicted).1 = () ∧
      (print_metrics y_true y_predicted).2.map (fun m => m.label)
        = ["Mean Square Error      = ", "Root Mean Square Error = ",
           "Mean Absolute Error    = ", "Median Absolute Error  = ",
           "R^2                    = "]) ∧
    (y_true.length ≠ y_predicted.length →
      print_metrics_checked y_true y_predicted
        = Except.error PyErr.valueError) := by
  constructor
  · intro h
    refine ⟨?_, rfl, rfl⟩
    simp [print_metrics_checked, check_consistent_length, h]
  · intro h
    simp [print_metrics_checked, check_consistent_length, h]

/-- C10: the L1 and L2 evaluation loops are one algorithm
parameterized by the model-fitting step: with the fit operation
abstracted as a parameter, test_regularization_l1 and
test_regularization_l2 produce identical results (returned pair and
plot effects alike) on every input. -/
theorem l1_loop_equals_l2_loop (fit : ℚ → Model) (xtr : List (List FVal))
    (ytr : List FVal) (xte : List (List FVal)) (yte : List FVal) (grid : List ℚ) :
    test_regularization_l1 fit xtr ytr xte yte grid
      = test_regularization_l2 fit xtr ytr xte yte grid :=
  test_reg_l1_eq_l2 fit xtr ytr xte yte grid

/-- C2 counterexample: the evaluation routine does not return the
per-penalty sequences: two runs whose train-error lists differ yield
identical return values, so the returned value cannot contain the six
components the claim lists. -/
theorem return_omits_per_penalty_lists :
    returnedPair (test_regularization_l2 constFit oneX y0 oneX y0 [5])
      = returnedPair (test_regularization_l2 constFit oneX y2 oneX y0 [5]) ∧
    (regPath_l2 constFit oneX y0 oneX y0 [5]).1
      ≠ (regPath_l2 constFit oneX y2 oneX y0 [5]).1 := by
  constructor
  · norm_num [returnedPair, test_regularization_l2, regPath_l2, fmean_sq_err,
      predict, predictRow, dotProd, fsum, fadd, fmul, fsub, sqDiff, fdivNat,
      constFit, oneX, y0, y2, np_argmin, idxOfP, fminList, flt, Except.map]
  · norm_num [regPath_l2, fmean_sq_err, predict, predictRow, dotProd, fsum,
      fadd, fmul, fsub, sqDiff, fdivNat, constFit, oneX, y0, y2]

/-- C2 (amended): on every non-empty grid the evaluation routine
returns only the pair (best penalty, its recorded test error): the
returned value is (grid[k], testErrors[k]) for the argmin index k; the
per-penalty lists and the coefficient matrix are handed to the
plotting call but are not part of the return value. -/
theorem evaluator_returns_best_pair_only (fit : ℚ → Model)
    (xtr : List (List FVal)) (ytr : List FVal) (xte : List (List FVal))
    (yte : List FVal) (grid : List ℚ) (h : grid ≠ []) :
    ∃ k, k < grid.length ∧
      returnedPair (test_regularization_l2 fit xtr ytr xte yte grid)
        = Except.ok (grid.getD k 0,
            (regPath_l2 fit xtr ytr xte yte grid).2.1.getD k none) := by
  have hlen := (regPath_l2_lengths fit xtr ytr xte yte grid).2.1
  have hne : (regPath_l2 fit xtr ytr xte yte grid).2.1 ≠ [] := by
    intro he
    apply h
    apply List.length_eq_zero.mp
    rw [← hlen, he]
    rfl
  rcases np_argmin_ok hne with ⟨k, hk⟩
  refine ⟨k, ?_, ?_⟩
  · have := np_argmin_lt_length hk
    rwa [hlen] at this
  · unfold returnedPair
    rw [test_reg_l2_with_argmin fit xtr ytr xte yte grid hk]
    rfl

/-- C3 counterexample: at a concrete input the evaluation routine
emits fourteen plotting effects (the full plot_regularization call)
before returning, so it is not free of plotting side effects. -/
theorem evaluator_emits_plot_effects :
    effectCount (test_regularization_l2 constFit oneX y0 oneX y0 [1]) = 14 ∧
    (14 : Nat) ≠ 0 := by
  constructor
  · norm_num [effectCount, test_regularization_l2, regPath_l2, fmean_sq_err,
      predict, predictRow, dotProd, fsum, fadd, fmul, fsub, sqDiff, fdivNat,
      constFit, oneX, y0, np_argmin, idxOfP, fminList, flt, plot_regularization]
  · decide

/-- C3 (amended): on every non-empty grid the evaluation routine calls
the plotting collaborator exactly once before returning, passing it
the computed sequences and the best penalty; its effect trace is that
non-empty list of matplotlib calls (it performs no other I/O). -/
theorem evaluator_always_plots (fit : ℚ → Model) (xtr : List (List FVal))
    (ytr : List FVal) (xte : List (List FVal)) (yte : List FVal)
    (grid : List ℚ) (h : grid ≠ []) :
    ∃ k effs,
      test_regularization_l2 fit xtr ytr xte yte grid
        = Except.ok ((grid.getD k 0,
            (regPath_l2 fit xtr ytr xte yte grid).2.1.getD k none), effs) ∧
      effs = plot_regularization grid (regPath_l2 fit xtr ytr xte yte grid).1
          (regPath_l2 fit xtr ytr xte yte grid).2.1
          (regPath_l2 fit xtr ytr xte yte grid).2.2 (grid.getD k 0)
          "Train and test root mean square error \n vs. regularization parameter" ∧
      effs ≠ [] := by
  have hlen := (regPath_l2_lengths fit xtr ytr xte yte grid).2.1
  have hne : (regPath_l2 fit xtr ytr xte yte grid).2.1 ≠ [] := by
    intro he
    apply h
    apply List.length_eq_zero.mp
    rw [← hlen, he]
    rfl
  rcases np_argmin_ok hne with ⟨k, hk⟩
  refine ⟨k, _, test_reg_l2_with_argmin fit xtr ytr xte yte grid hk, rfl, ?_⟩
  simp [plot_regularization]

/-- C8: each of the per-penalty lists the evaluation loop produces
(train errors, test errors, coefficient vectors) has exactly one entry
per grid element, and the i-th entry of each is computed from the i-th
grid penalty; the L1 loop produces the same lists. -/
theorem regPath_parallel_lists (fit : ℚ → Model) (xtr : List (List FVal))
    (ytr : List FVal) (xte : List (List FVal)) (yte : List FVal) (grid : List ℚ) :
    ((regPath_l2 fit xtr ytr xte yte grid).1.length = grid.length ∧
     (regPath_l2 fit xtr ytr xte yte grid).2.1.length = grid.length ∧
     (regPath_l2 fit xtr ytr xte yte grid).2.2.length = grid.length) ∧
    (∀ i, i < grid.length →
      (regPath_l2 fit xtr ytr xte yte grid).1.getD i none
          = fmean_sq_err ytr (predict (fit (grid.getD i 0)) xtr) ∧
      (regPath_l2 fit xtr ytr xte yte grid).2.1.getD i none
          = fmean_sq_err yte (predict (fit (grid.getD i 0)) xte) ∧
      (regPath_l2 fit xtr ytr xte yte grid).2.2.getD i []
          = (fit (grid.getD i 0)).coef) ∧
    regPath_l1 fit xtr ytr xte yte grid = regPath_l2 fit xtr ytr xte yte grid :=
  ⟨regPath_l2_lengths fit xtr ytr xte yte grid,
   fun i hi => regPath_l2_getD fit xtr ytr xte yte grid i hi,
   regPath_l1_eq fit xtr ytr xte yte grid⟩

/-- C4 counterexample: with the constant solver, both penalties in the
grid [2, 1] record the identical test error 0, yet the routine returns
the best penalty 2 (the first grid position, np.argmin first
occurrence) instead of the smaller tied value 1 the claim requires. -/
theorem tie_break_takes_first_not_smallest :
    (regPath_l2 constFit oneX y0 oneX y0 [2, 1]).2.1 = [some 0, some 0] ∧
    returnedPair (test_regularization_l2 constFit oneX y0 oneX y0 [2, 1])
      = Except.ok (2, some 0) ∧
    (2 : ℚ) ≠ 1 := by
  refine ⟨?_, ?_, by norm_num⟩
  · norm_num [regPath_l2, fmean_sq_err, predict, predictRow, dotProd, fsum,
      fadd, fmul, fsub, sqDiff, fdivNat, constFit, oneX, y0]
  · norm_num [returnedPair, test_regularization_l2, regPath_l2, fmean_sq_err,
      predict, predictRow, dotProd, fsum, fadd, fmul, fsub, sqDiff, fdivNat,
      constFit, oneX, y0, np_argmin, idxOfP, fminList, flt, Except.map]

/-- C4 (amended): when no recorded test error is NaN, the best penalty
the routine returns is the grid value at the first index attaining the
minimum recorded test error: the entry there is a minimum of the list,
and every strictly earlier entry is strictly larger.  The selection
follows grid order (np.argmin first occurrence), not the smallest
magnitude among ties. -/
theorem best_penalty_first_min (fit : ℚ → Model) (xtr : List (List FVal))
    (ytr : List FVal) (xte : List (List FVal)) (yte : List FVal)
    (grid : List ℚ) (h : grid ≠ [])
    (hn : ∀ v ∈ (regPath_l2 fit xtr ytr xte yte grid).2.1, v ≠ none) :
    ∃ k, k < grid.length ∧
      returnedPair (test_regularization_l2 fit xtr ytr xte yte grid)
        = Except.ok (grid.getD k 0,
            (regPath_l2 fit xtr ytr xte yte grid).2.1.getD k none) ∧
      (∀ j, j < grid.length →
        flt ((regPath_l2 fit xtr ytr xte yte grid).2.1.getD j none)
            ((regPath_l2 fit xtr ytr xte yte grid).2.1.getD k none) = false) ∧
      (∀ j, j < k →
        flt ((regPath_l2 fit xtr ytr xte yte grid).2.1.getD k none)
            ((regPath_l2 fit xtr ytr xte yte grid).2.1.getD j none) = true) := by
  set te := (regPath_l2 fit xtr ytr xte yte grid).2.1 with hte
  have hlen : te.length = grid.length :=
    (regPath_l2_lengths fit xtr ytr xte yte grid).2.1
  have hne : te ≠ [] := by
    intro he
    apply h
    apply List.length_eq_zero.mp
    rw [← hlen, he]
    rfl
  have hargmin := np_argmin_no_nan hne hn
  set k := idxOfP (fun v => decide (v = fminList te)) te with hk
  have hex : ∃ v ∈ te, (fun v => decide (v = fminList te)) v = true :=
    ⟨fminList te, fminList_mem hne, by simp⟩
  have hklt : k < te.length := idxOfP_lt_length hex
  have hminval : te.getD k none = fminList te := by
    have := idxOfP_getD (d := none) hex
    simpa using this
  refine ⟨k, hlen ▸ hklt, ?_, ?_, ?_⟩
  · unfold returnedPair
    rw [test_reg_l2_with_argmin fit xtr ytr xte yte grid hargmin]
    rfl
  · intro j hj
    have hmem : te.getD j none ∈ te := getD_mem (by rw [hlen]; exact hj)
    rw [hminval]
    exact fminList_notlt hmem
  · intro j hj
    have hj2 : j < te.length := lt_trans hj hklt
    have hmem : te.getD j none ∈ te := getD_mem hj2
    have hnecur : te.getD j none ≠ fminList te := by
      have := idxOfP_before (d := none) hj
      simpa using this
    have hnotlt : flt (te.getD j none) (fminList te) = false := fminList_notlt hmem
    rw [hminval]
    cases hgj : te.getD j none with
    | none => exact absurd hgj (hn _ hmem)
    | some a =>
        cases hgm : fminList te with
        | none => exact absurd hgm (hn _ (fminList_mem hne))
        | some b =>
            apply flt_total_some
            · rw [← hgj, ← hgm]; exact hnotlt
            · rw [← hgj, ← hgm]; exact hnecur

/-- C6 counterexample: with a solver that fails to converge at penalty
2 (NaN model), the recorded test errors are [0, NaN]; the routine
returns best penalty 2 with a NaN error value, instead of skipping the
NaN and returning penalty 1 whose error 0 is the non-NaN minimum. -/
theorem nan_not_skipped :
    (regPath_l2 nanFit oneX y0 oneX y0 [1, 2]).2.1 = [some 0, none] ∧
    returnedPair (test_regularization_l2 nanFit oneX y0 oneX y0 [1, 2])
      = Except.ok (2, none) ∧
    (2 : ℚ) ≠ 1 := by
  refine ⟨?_, ?_, by norm_num⟩
  · norm_num [regPath_l2, fmean_sq_err, predict, predictRow, dotProd, fsum,
      fadd, fmul, fsub, sqDiff, fdivNat, nanFit, oneX, y0]
  · norm_num [returnedPair, test_regularization_l2, regPath_l2, fmean_sq_err,
      predict, predictRow, dotProd, fsum, fadd, fmul, fsub, sqDiff, fdivNat,
      nanFit, oneX, y0, np_argmin, idxOfP, fminList, flt, Except.map]

/-- C6 (amended): NaN entries are not excluded from minimum selection:
whenever some recorded test error is NaN, np.argmin selects the first
NaN position, so the routine returns the grid value at the first index
whose recorded test error is NaN, together with that NaN value. -/
theorem nan_selects_first_nan (fit : ℚ → Model) (xtr : List (List FVal))
    (ytr : List FVal) (xte : List (List FVal)) (yte : List FVal)
    (grid : List ℚ)
    (hnan : (regPath_l2 fit xtr ytr xte yte grid).2.1.any
        (fun v => v.isNone) = true) :
    ∃ k, k < grid.length ∧
      (regPath_l2 fit xtr ytr xte yte grid).2.1.getD k none = none ∧
      (∀ j, j < k →
        (regPath_l2 fit xtr ytr xte yte grid).2.1.getD j none ≠ none) ∧
      returnedPair (test_regularization_l2 fit xtr ytr xte yte grid)
        = Except.ok (grid.getD k 0, none) := by
  set te := (regPath_l2 fit xtr ytr xte yte grid).2.1 with hte
  have hlen : te.length = grid.length :=
    (regPath_l2_lengths fit xtr ytr xte yte grid).2.1
  have hargmin := np_argmin_with_nan hnan
  set k := idxOfP (fun v => v.isNone) te with hk
  have hex : ∃ v ∈ te, (fun v => v.isNone) v = true := by
    rw [List.any_eq_true] at hnan
    rcases hnan with ⟨v, hv, hp⟩
    exact ⟨v, hv, hp⟩
  have hklt : k < te.length := idxOfP_lt_length hex
  have hgetk : te.getD k none = none := by
    have := idxOfP_getD (d := none) hex
    simpa [Option.isNone_iff_eq_none] using this
  refine ⟨k, hlen ▸ hklt, hgetk, ?_, ?_⟩
  · intro j hj
    have h2 := idxOfP_before (d := none) hj
    intro he
    rw [he] at h2
    simp at h2
  · unfold returnedPair
    rw [test_reg_l2_with_argmin fit xtr ytr xte yte grid hargmin, ← hte, hgetk]
    rfl

lemma zipWith_sq_sum_nonneg :
    ∀ (l1 l2 : List ℚ), 0 ≤ (List.zipWith (fun a b => (a - b) ^ 2) l1 l2).sum := by
  intro l1
  induction l1 with
  | nil => intro l2; simp
  | cons a l1 ih =>
      intro l2
      cases l2 with
      | nil => simp
      | cons b l2 =>
          simp only [List.zipWith_cons_cons, List.sum_cons]
          have h1 := ih l2
          have h2 : (0 : ℚ) ≤ (a - b) ^ 2 := sq_nonneg _
          linarith

lemma mean_squared_error_nonneg (y_true y_pred : List ℚ) :
    0 ≤ mean_squared_error y_true y_pred := by
  unfold mean_squared_error
  apply div_nonneg (zipWith_sq_sum_nonneg _ _)
  exact_mod_cast Nat.zero_le _

/-- C9: for every pair of equal-length input sequences, the RMSE value
print_metrics computes (its second printed line) squared equals
exactly the MSE value it computes (its first printed line). -/
theorem rmse_squared_eq_mse (y_true y_predicted : List ℚ)
    (h : y_true.length = y_predicted.length) :
    ((print_metrics y_true y_predicted).2.getD 1 (MetricLine.mk "" 0)).value ^ 2
      = ((print_metrics y_true y_predicted).2.getD 0 (MetricLine.mk "" 0)).value := by
  simp only [print_metrics, List.getD_cons_succ, List.getD_cons_zero]
  exact Real.sq_sqrt (by exact_mod_cast mean_squared_error_nonneg y_true y_predicted)

/-!
Witness theorems: closed instantiations of the claim theorems that
carry hypotheses, at concrete inputs.
-/

/-- Witness for the amended C2 theorem at a concrete input. -/
theorem evaluator_returns_best_pair_only_witness :
    (([5] : List ℚ) ≠ []) ∧
    (∃ k, k < ([5] : List ℚ).length ∧
      returnedPair (test_regularization_l2 constFit oneX y0 oneX y0 [5])
        = Except.ok (([5] : List ℚ).getD k 0,
            (regPath_l2 constFit oneX y0 oneX y0 [5]).2.1.getD k none)) :=
  ⟨by decide, evaluator_returns_best_pair_only constFit oneX y0 oneX y0 [5] (by decide)⟩

/-- Witness for the amended C3 theorem at a concrete input. -/
theorem evaluator_always_plots_witness :
    (([1] : List ℚ) ≠ []) ∧
    (∃ k effs,
      test_regularization_l2 constFit oneX y0 oneX y0 [1]
        = Except.ok ((([1] : List ℚ).getD k 0,
            (regPath_l2 constFit oneX y0 oneX y0 [1]).2.1.getD k none), effs) ∧
      effs = plot_regularization [1] (regPath_l2 constFit oneX y0 oneX y0 [1]).1
          (regPath_l2 constFit oneX y0 oneX y0 [1]).2.1
          (regPath_l2 constFit oneX y0 oneX y0 [1]).2.2 (([1] : List ℚ).getD k 0)
          "Train and test root mean square error \n vs. regularization parameter" ∧
      effs ≠ []) :=
  ⟨by decide, evaluator_always_plots constFit oneX y0 oneX y0 [1] (by decide)⟩

/-- Witness for the amended C4 theorem at a concrete tied input. -/
theorem best_penalty_first_min_witness :
    (([2, 1] : List ℚ) ≠ []) ∧
    (∀ v ∈ (regPath_l2 constFit oneX y0 oneX y0 [2, 1]).2.1, v ≠ none) ∧
    (∃ k, k < ([2, 1] : List ℚ).length ∧
      returnedPair (test_regularization_l2 constFit oneX y0 oneX y0 [2, 1])
        = Except.ok (([2, 1] : List ℚ).getD k 0,
            (regPath_l2 constFit oneX y0 oneX y0 [2, 1]).2.1.getD k none) ∧
      (∀ j, j < ([2, 1] : List ℚ).length →
        flt ((regPath_l2 constFit oneX y0 oneX y0 [2, 1]).2.1.getD j none)
            ((regPath_l2 constFit oneX y0 oneX y0 [2, 1]).2.1.getD k none) = false) ∧
      (∀ j, j < k →
        flt ((regPath_l2 constFit oneX y0 oneX y0 [2, 1]).2.1.getD k none)
            ((regPath_l2 constFit oneX y0 oneX y0 [2, 1]).2.1.getD j none) = true)) :=
  ⟨by decide, by decide,
   best_penalty_first_min constFit oneX y0 oneX y0 [2, 1] (by decide) (by decide)⟩

/-- Witness for the amended C6 theorem at a concrete NaN-producing
input. -/
theorem nan_selects_first_nan_witness :
    ((regPath_l2 nanFit oneX y0 oneX y0 [1, 2]).2.1.any
        (fun v => v.isNone) = true) ∧
    (∃ k, k < ([1, 2] : List ℚ).length ∧
      (regPath_l2 nanFit oneX y0 oneX y0 [1, 2]).2.1.getD k none = none ∧
      (∀ j, j < k →
        (regPath_l2 nanFit oneX y0 oneX y0 [1, 2]).2.1.getD j none ≠ none) ∧
      returnedPair (test_regularization_l2 nanFit oneX y0 oneX y0 [1, 2])
        = Except.ok (([1, 2] : List ℚ).getD k 0, none)) :=
  ⟨by decide, nan_selects_first_nan nanFit oneX y0 oneX y0 [1, 2] (by decide)⟩

/-- Witness for the C8 theorem at a concrete input and index. -/
theorem regPath_parallel_lists_witness :
    ((0 : Nat) < ([5] : List ℚ).length) ∧
    (regPath_l2 constFit oneX y0 oneX y0 [5]).1.getD 0 none
      = fmean_sq_err y0 (predict (constFit (([5] : List ℚ).getD 0 0)) oneX) :=
  ⟨by decide,
   ((regPath_parallel_lists constFit oneX y0 oneX y0 [5]).2.1 0 (by decide)).1⟩

/-- Witness for the C9 theorem at a concrete input. -/
theorem rmse_squared_eq_mse_witness :
    (([0, 2] : List ℚ).length = ([1, 1] : List ℚ).length) ∧
    ((print_metrics [0, 2] [1, 1]).2.getD 1 (MetricLine.mk "" 0)).value ^ 2
      = ((print_metrics [0, 2] [1, 1]).2.getD 0 (MetricLine.mk "" 0)).value :=
  ⟨by decide, rmse_squared_eq_mse [0, 2] [1, 1] (by decide)⟩

/-- Witness for the amended C7 theorem: one equal-length run that
prints, and one mismatched-length run that raises ValueError. -/
theorem print_metrics_shape_witness :
    (([0] : List ℚ).length = ([1] : List ℚ).length ∧
      print_metrics_checked [0] [1] = Except.ok (print_metrics [0] [1])) ∧
    (([0] : List ℚ).length ≠ ([1, 2] : List ℚ).length ∧
      print_metrics_checked [0] [1, 2] = Except.error PyErr.valueError) :=
  ⟨⟨by decide, ((print_metrics_shape [0] [1]).1 (by decide)).1⟩,
   ⟨by decide, (print_metrics_shape [0] [1, 2]).2 (by decide)⟩⟩
